import Mathlib

/-!
Formal model of the `catchment` package (file `src/catchment/models.py`).

Catchment data lives in a pandas DataFrame whose rows are indexed by
timestamps and whose columns are site identifiers.  We embed such a wide
table shallowly: a timestamp is a calendar date (an ordinal day number)
together with a time-of-day; a cell is `Option ℚ` (`none` models a
NaN/absent reading, `some v` a present value).

The five daily aggregation functions are all of the form
`data.groupby(data.index.date).<reducer>()`.  Pandas groups the rows by the
distinct dates of the index and emits one output row per distinct date in
ascending order, keeping the columns.  The reducers follow pandas
semantics on the present (non-NaN) values of each (date, column) group:
`sum` of an all-NaN group is `0` (the default `min_count=0`), while
`mean`/`max`/`min` of an all-NaN group are NaN and `count` is `0`.

`models.py` imports only pandas (`import pandas as pd`); the names `gpd`
and `sjoin` used by `Site.__init__`, `Catchment.__init__` and
`Catchment.add_site` are never bound, so evaluating them raises a Python
`NameError`.  We model this by carrying the list of module-level names and
performing an explicit lookup wherever the source evaluates `gpd` or
`sjoin`.  Geometry itself is the external collaborator of the spec: a site
location is a rational point and a catchment area is a decidable predicate
on points, with `sjoin(location, area)` nonempty exactly when the area
contains the point.
-/

/-- A timestamp of the row index: calendar date (as an ordinal day number)
and a time of day.  The daily aggregations group by the date component. -/
structure Timestamp where
  date : Int
  timeOfDay : Nat
deriving DecidableEq, Repr

/-- One row of a wide table: its timestamp and one optional cell per column. -/
abbrev Row := Timestamp × List (Option ℚ)

/-- A pandas wide DataFrame: ordered column labels (site identifiers) and
rows, each carrying its timestamp index value and its cells. -/
structure WideTable where
  columns : List String
  rows : List Row
deriving DecidableEq, Repr

/-- The result of a daily aggregation: rows are indexed by calendar date. -/
structure DailyTable where
  columns : List String
  rows : List (Int × List (Option ℚ))
deriving DecidableEq, Repr

/-- The dates of the row index, in row order (`data.index.date`). -/
def datesOf (t : WideTable) : List Int :=
  t.rows.map fun r => r.1.date

/-- The group keys of `data.groupby(data.index.date)`: the distinct dates of
the index in ascending order (pandas sorts group keys). -/
def groupDates (t : WideTable) : List Int :=
  ((datesOf t).dedup).insertionSort fun a b => a ≤ b

/-- The rows of the group for date `d`. -/
def rowsOn (t : WideTable) (d : Int) : List Row :=
  t.rows.filter fun r => decide (r.1.date = d)

/-- The cell of row `r` in column position `j` (absent when out of range). -/
def cellOf (r : Row) (j : Nat) : Option ℚ :=
  (r.2[j]?).join

/-- The present (non-NaN) values of column position `j` among `rows`. -/
def colVals (rows : List Row) (j : Nat) : List ℚ :=
  rows.filterMap fun r => cellOf r j

/-- Pandas `GroupBy.sum` on the present values of one group: with the
default `min_count = 0` an all-NaN group sums to `0`, never to NaN. -/
def pdSum (vs : List ℚ) : Option ℚ :=
  some vs.sum

/-- Pandas `GroupBy.mean` on the present values of one group: NaN when the
group has no present value. -/
def pdMean (vs : List ℚ) : Option ℚ :=
  if vs.length = 0 then none else some (vs.sum / (vs.length : ℚ))

/-- Pandas `GroupBy.max` on the present values of one group: NaN when empty. -/
def pdMax (vs : List ℚ) : Option ℚ :=
  vs.max?

/-- Pandas `GroupBy.min` on the present values of one group: NaN when empty. -/
def pdMin (vs : List ℚ) : Option ℚ :=
  vs.min?

/-- Pandas `GroupBy.count`: the number of present values, never NaN. -/
def pdCount (vs : List ℚ) : Option ℚ :=
  some ((vs.length : ℚ))

/-- `data.groupby(data.index.date).<agg>()`: one output row per distinct
date, ascending, columns kept; each cell reduces the present values of its
(date, column) group. -/
def aggregateBy (agg : List ℚ → Option ℚ) (t : WideTable) : DailyTable :=
  { columns := t.columns
    rows := (groupDates t).map fun d =>
      (d, (List.range t.columns.length).map fun j => agg (colVals (rowsOn t d) j)) }

/-- `daily_total(data)`: `data.groupby(data.index.date).sum()`. -/
def daily_total (data : WideTable) : DailyTable :=
  aggregateBy pdSum data

/-- `daily_mean(data)`: `data.groupby(data.index.date).mean()`. -/
def daily_mean (data : WideTable) : DailyTable :=
  aggregateBy pdMean data

/-- `daily_max(data)`: `data.groupby(data.index.date).max()`. -/
def daily_max (data : WideTable) : DailyTable :=
  aggregateBy pdMax data

/-- `daily_min(data)`: `data.groupby(data.index.date).min()`. -/
def daily_min (data : WideTable) : DailyTable :=
  aggregateBy pdMin data

/-- `daily_count(data)`: `data.groupby(data.index.date).count()`. -/
def daily_count (data : WideTable) : DailyTable :=
  aggregateBy pdCount data

/-- The output cell of a daily table for date `d` and column position `j`
(looked up through the row index, as pandas indexing does). -/
def cellAtDate (dt : DailyTable) (d : Int) (j : Nat) : Option (Option ℚ) :=
  (dt.rows.find? fun r => decide (r.1 = d)).bind fun r => r.2[j]?

/-- A Python runtime error raised by the modelled code. -/
inductive PyError where
  | nameError (missing : String)
  | keyError (key : String)
deriving DecidableEq, Repr

/-- Position of the first column labelled `s` (`data[s]` column lookup;
`none` models the `KeyError` pandas raises for a missing column). -/
def colIndex (cols : List String) (s : String) : Option Nat :=
  match cols with
  | [] => none
  | c :: cs => if c = s then some 0 else (colIndex cs s).map fun i => i + 1

/-- The comparison `lambda x: x > threshold` applied to one cell: a NaN
(absent) cell compares as not-greater, giving `false`. -/
def thresholdFlag (threshold : ℚ) (x : Option ℚ) : Bool :=
  match x with
  | none => false
  | some v => decide (threshold < v)

/-- `data_above_threshold(site_id, data, threshold)`:
`list(map(lambda x: x > threshold, data[site_id]))`.  The column lookup
`data[site_id]` raises `KeyError` when `site_id` is not a column. -/
def data_above_threshold (site_id : String) (data : WideTable) (threshold : ℚ) :
    Except PyError (List Bool) :=
  match colIndex data.columns site_id with
  | none => Except.error (PyError.keyError site_id)
  | some j => Except.ok (data.rows.map fun r => thresholdFlag threshold (cellOf r j))

/-- A pandas Series: its entries (index value paired with reading, in
storage order) and its `name` attribute. -/
structure PdSeries where
  entries : List (Timestamp × ℚ)
  sname : Option String
deriving DecidableEq, Repr

/-- `pd.concat([a, b])` on two Series: the entries of `a` followed by the
entries of `b`, unsorted and with duplicates retained; the result keeps the
common name when both agree, else drops it. -/
def pdConcat (a b : PdSeries) : PdSeries :=
  { entries := a.entries ++ b.entries
    sname := if a.sname = b.sname then a.sname else none }

/-- `class MeasurementSeries`: a stored series, a display name, and units. -/
structure MeasurementSeries where
  series : PdSeries
  name : String
  units : Option String
deriving DecidableEq, Repr

/-- `MeasurementSeries.__init__(self, series, name, units)`: stores the
series and stamps `self.series.name = self.name`. -/
def MeasurementSeries.create (series : PdSeries) (name : String)
    (units : Option String) : MeasurementSeries :=
  { series := { series with sname := some name }
    name := name
    units := units }

/-- `MeasurementSeries.add_measurement(self, data)`:
`self.series = pd.concat([self.series, data])` then
`self.series.name = self.name`. -/
def MeasurementSeries.add_measurement (self : MeasurementSeries)
    (data : PdSeries) : MeasurementSeries :=
  let s := pdConcat self.series data
  { self with series := { s with sname := some self.name } }

/-- The names bound at module level in `models.py`: the single import
`import pandas as pd` followed by the module's own `def` and `class`
statements.  Neither `gpd` nor `sjoin` is ever bound. -/
def moduleGlobals : List String :=
  ["pd", "read_variable_from_csv", "daily_total", "daily_mean", "daily_max",
   "daily_min", "daily_count", "data_above_threshold", "MeasurementSeries",
   "Location", "Site", "Catchment"]

/-- A site location: a rational point, or `none` for the empty
`GeoDataFrame` standing in for an undefined location (`.size` is 0). -/
abbrev GeoPoint := ℚ × ℚ

/-- A catchment area as seen through `sjoin`: the decidable set of points it
contains.  `none` models the empty `GeoDataFrame` (undefined area). -/
abbrev Area := GeoPoint → Bool

/-- `class Site(Location)`: display name, owned measurement series keyed by
measurement id in registration order, and an optional point location. -/
structure Site where
  name : String
  measurements : List (String × MeasurementSeries)
  location : Option GeoPoint

/-- Python truthiness of an optional numeric argument: `None` and `0` are
falsy. -/
def pyTruthy (x : Option ℚ) : Bool :=
  match x with
  | none => false
  | some v => decide (v ≠ 0)

/-- `Site.__init__(self, name, longitude=None, latitude=None)`: after the
`if longitude and latitude:` test, both branches evaluate the global name
`gpd`, which is unbound in `models.py`, so construction raises `NameError`
before any `Site` object exists. -/
def Site.create (name : String) (longitude latitude : Option ℚ) :
    Except PyError Site :=
  if pyTruthy longitude && pyTruthy latitude then
    if "gpd" ∈ moduleGlobals then
      Except.ok { name := name, measurements := [],
                  location := some (longitude.getD 0, latitude.getD 0) }
    else Except.error (PyError.nameError "gpd")
  else
    if "gpd" ∈ moduleGlobals then
      Except.ok { name := name, measurements := [], location := none }
    else Except.error (PyError.nameError "gpd")

/-- First series registered under key `k` in a measurement mapping
(`measurement_id in self.measurements.keys()` plus the lookup). -/
def lookupSeries (m : List (String × MeasurementSeries)) (k : String) :
    Option MeasurementSeries :=
  match m with
  | [] => none
  | p :: rest => if p.1 = k then some p.2 else lookupSeries rest k

/-- In-place update of the series stored under key `k` (a Python dict keeps
the key's position when its value is mutated). -/
def updateSeries (m : List (String × MeasurementSeries)) (k : String)
    (v : MeasurementSeries) : List (String × MeasurementSeries) :=
  m.map fun p => if p.1 = k then (k, v) else p

/-- `Site.add_measurement(self, measurement_id, data, units=None)`: delegate
to the registered series when the id exists (the `units` argument is not
used on that path), else register a fresh `MeasurementSeries(data,
measurement_id, units)` (a new dict key is appended at the end). -/
def Site.add_measurement (self : Site) (measurement_id : String)
    (data : PdSeries) (units : Option String) : Site :=
  match lookupSeries self.measurements measurement_id with
  | some ms =>
      { self with measurements :=
          updateSeries self.measurements measurement_id (ms.add_measurement data) }
  | none =>
      { self with measurements :=
          self.measurements ++
            [(measurement_id, MeasurementSeries.create data measurement_id units)] }

/-- The outcome a caller observes from `Catchment.add_site` (the code
prints a message and returns; we record which terminal branch ran). -/
inductive AddSiteOutcome where
  | notInCatchment
  | alreadyAdded
  | added
deriving DecidableEq, Repr

/-- `class Catchment(Location)`: display name, owned sites keyed by site
name in admission order, and an optional area. -/
structure Catchment where
  name : String
  sites : List (String × Site)
  area : Option Area

/-- `Catchment.__init__(self, name, shapefile=None)`: after the
`if shapefile:` test, both branches evaluate the unbound global `gpd`, so
construction raises `NameError`.  The `shapefile` argument is modelled by
the area its file would denote (`none` for the `None` default). -/
def Catchment.create (name : String) (shapefile : Option Area) :
    Except PyError Catchment :=
  if shapefile.isSome then
    if "gpd" ∈ moduleGlobals then
      Except.ok { name := name, sites := [], area := shapefile }
    else Except.error (PyError.nameError "gpd")
  else
    if "gpd" ∈ moduleGlobals then
      Except.ok { name := name, sites := [], area := none }
    else Except.error (PyError.nameError "gpd")

/-- The duplicate-name check and registration of `Catchment.add_site`: the
`for site in self.sites:` loop over the keys, then
`self.sites[new_site.name] = new_site`. -/
def Catchment.dupCheckAndAdd (self : Catchment) (new_site : Site) :
    Except PyError (Catchment × AddSiteOutcome) :=
  if (self.sites.map Prod.fst).contains new_site.name then
    Except.ok (self, AddSiteOutcome.alreadyAdded)
  else
    Except.ok ({ self with sites := self.sites ++ [(new_site.name, new_site)] },
               AddSiteOutcome.added)

/-- `Catchment.add_site(self, new_site)`: the guard
`self.area.size and new_site.location.size and not sjoin(new_site.location,
self.area).size` short-circuits, so the unbound global `sjoin` is evaluated
(raising `NameError`) exactly when both geometries are defined; an empty
spatial join (point outside the area) would refuse the site, otherwise the
duplicate-name check and registration run. -/
def Catchment.add_site (self : Catchment) (new_site : Site) :
    Except PyError (Catchment × AddSiteOutcome) :=
  match self.area, new_site.location with
  | some area, some loc =>
      if "sjoin" ∈ moduleGlobals then
        if area loc then self.dupCheckAndAdd new_site
        else Except.ok (self, AddSiteOutcome.notInCatchment)
      else Except.error (PyError.nameError "sjoin")
  | _, _ => self.dupCheckAndAdd new_site

/-- The end-to-end example table of the spec: three timestamps on one date,
columns `A`, `B`, values `[[1,2],[3,4],[5,6]]`. -/
def exampleTable : WideTable :=
  { columns := ["A", "B"]
    rows := [(⟨0, 1⟩, [some 1, some 2]),
             (⟨0, 2⟩, [some 3, some 4]),
             (⟨0, 3⟩, [some 5, some 6])] }

/-- A one-row, one-column table whose only cell is absent. -/
def absentCellTable : WideTable :=
  { columns := ["A"]
    rows := [(⟨0, 0⟩, [none])] }

/-- A two-row table whose timestamps fall on two distinct dates. -/
def twoDayTable : WideTable :=
  { columns := ["A"]
    rows := [(⟨0, 0⟩, [some 2]), (⟨1, 0⟩, [some 5])] }

/-- A one-entry series of readings. -/
def rainData : PdSeries :=
  { entries := [(⟨0, 0⟩, 1)], sname := none }

/-- A site state owning one measurement series registered as `rain`. -/
def siteWithRain : Site :=
  { name := "S1"
    measurements := [("rain", MeasurementSeries.create rainData "rain" (some "mm"))]
    location := none }

/-- A site state owning no measurement series. -/
def bareSite : Site :=
  { name := "S2", measurements := [], location := none }

/-- A site state with a defined location. -/
def locatedSite : Site :=
  { name := "S1", measurements := [], location := some (1, 1) }

/-- A catchment state with a defined area and no sites. -/
def withAreaCatchment : Catchment :=
  { name := "C1", sites := [], area := some fun _ => false }

/-- A catchment state with no defined area, already owning a site `S1`. -/
def noAreaDupCatchment : Catchment :=
  { name := "C1", sites := [("S1", locatedSite)], area := none }

/-- A catchment state with a defined area, already owning a site `S1`. -/
def dupAreaCatchment : Catchment :=
  { name := "C1", sites := [("S1", locatedSite)], area := some fun _ => false }

/-! ### Structural lemmas about the grouping -/

theorem mem_groupDates (t : WideTable) (d : Int) :
    d ∈ groupDates t ↔ d ∈ datesOf t := by
  unfold groupDates
  rw [(List.perm_insertionSort _ _).mem_iff, List.mem_dedup]

theorem groupDates_sorted (t : WideTable) :
    (groupDates t).Pairwise fun a b : Int => a < b := by
  have hs : (groupDates t).Sorted fun a b : Int => a ≤ b :=
    List.sorted_insertionSort _ _
  have hnd : (groupDates t).Nodup :=
    ((List.perm_insertionSort _ _).symm).nodup (List.nodup_dedup _)
  exact hs.lt_of_le hnd

theorem groupDates_length (t : WideTable) (hnd : (datesOf t).Nodup) :
    (groupDates t).length = t.rows.length := by
  unfold groupDates
  rw [(List.perm_insertionSort _ _).length_eq, List.dedup_eq_self.mpr hnd]
  simp [datesOf]

theorem find?_keyed_map {β : Type} (g : Int → β) :
    ∀ (l : List Int) (d : Int), d ∈ l →
      ((l.map fun x => (x, g x)).find? fun r => decide (r.1 = d)) = some (d, g d) := by
  intro l
  induction l with
  | nil => intro d hd; cases hd
  | cons x xs ih =>
    intro d hd
    rcases List.mem_cons.mp hd with rfl | hd'
    · simp [List.find?_cons]
    · by_cases hx : x = d
      · subst hx; simp [List.find?_cons]
      · simp only [List.map_cons, List.find?_cons]
        have hfx : decide ((x, g x).1 = d) = false := by simp [hx]
        rw [hfx]
        exact ih d hd'

theorem cellAtDate_aggregateBy (agg : List ℚ → Option ℚ) (t : WideTable)
    (d : Int) (j : Nat) (hd : d ∈ groupDates t) (hj : j < t.columns.length) :
    cellAtDate (aggregateBy agg t) d j = some (agg (colVals (rowsOn t d) j)) := by
  unfold cellAtDate aggregateBy
  rw [find?_keyed_map
    (fun x => (List.range t.columns.length).map fun j => agg (colVals (rowsOn t x) j))
    (groupDates t) d hd]
  simp only [Option.some_bind]
  rw [List.getElem?_map, List.getElem?_range hj]
  rfl

theorem filter_key_single {α β : Type} [DecidableEq β] (f : α → β) :
    ∀ (l : List α), (l.map f).Nodup → ∀ r ∈ l,
      (l.filter fun x => decide (f x = f r)) = [r] := by
  intro l
  induction l with
  | nil => intro _ r hr; cases hr
  | cons a as ih =>
    intro hnd r hr
    rw [List.map_cons, List.nodup_cons] at hnd
    rcases List.mem_cons.mp hr with rfl | hr'
    · rw [List.filter_cons, if_pos (by simp)]
      have hnil : (as.filter fun x => decide (f x = f r)) = [] := by
        rw [List.filter_eq_nil_iff]
        intro x hx
        simp only [decide_eq_true_eq]
        intro hfx
        exact hnd.1 (hfx ▸ List.mem_map_of_mem f hx)
      rw [hnil]
    · have hfa : ¬ f a = f r := fun h => hnd.1 (h ▸ List.mem_map_of_mem f hr')
      rw [List.filter_cons, if_neg (by simpa using hfa)]
      exact ih hnd.2 r hr'

theorem rowsOn_eq_single (t : WideTable) (hnd : (datesOf t).Nodup)
    (r : Row) (hr : r ∈ t.rows) : rowsOn t r.1.date = [r] :=
  filter_key_single (fun x : Row => x.1.date) t.rows hnd r hr

theorem colVals_single (r : Row) (j : Nat) :
    colVals [r] j = (cellOf r j).toList := by
  cases h : cellOf r j <;> simp [colVals, h]

theorem pdSum_single (v : ℚ) : pdSum [v] = some v := by
  simp [pdSum]

theorem pdMean_single (v : ℚ) : pdMean [v] = some v := by
  simp [pdMean]

theorem pdMax_single (v : ℚ) : pdMax [v] = some v := rfl

theorem pdMin_single (v : ℚ) : pdMin [v] = some v := rfl

theorem pdCount_single (v : ℚ) : pdCount [v] = some 1 := by
  simp [pdCount]

/-! ### Lemmas about the column lookup and the measurement mapping -/

theorem colIndex_eq_none (cols : List String) (s : String) (h : s ∉ cols) :
    colIndex cols s = none := by
  induction cols with
  | nil => rfl
  | cons c cs ih =>
    simp only [colIndex]
    rw [if_neg (fun hcs => h (List.mem_cons.mpr (Or.inl hcs.symm))),
      ih (fun hs => h (List.mem_cons_of_mem _ hs))]
    rfl

theorem colIndex_eq_some (cols : List String) (s : String) :
    ∀ j : Nat, cols.Nodup → cols[j]? = some s → colIndex cols s = some j := by
  induction cols with
  | nil => intro j _ hj; simp at hj
  | cons c cs ih =>
    intro j hnd hj
    rcases j with _ | j
    · have hc : c = s := by simpa using hj
      simp [colIndex, hc]
    · rw [List.getElem?_cons_succ] at hj
      have hmem : s ∈ cs := by
        obtain ⟨hlt, hs⟩ := List.getElem?_eq_some_iff.mp hj
        exact hs ▸ List.getElem_mem hlt
      have hcs : ¬ c = s := fun h => (List.nodup_cons.mp hnd).1 (h ▸ hmem)
      simp only [colIndex]
      rw [if_neg hcs, ih j (List.nodup_cons.mp hnd).2 hj]
      rfl

theorem lookupSeries_updateSeries (m : List (String × MeasurementSeries))
    (k : String) (v ms : MeasurementSeries)
    (h : lookupSeries m k = some ms) :
    lookupSeries (updateSeries m k v) k = some v := by
  induction m with
  | nil => simp [lookupSeries] at h
  | cons p rest ih =>
    by_cases hp : p.1 = k
    · simp [updateSeries, lookupSeries, hp]
    · have hrest : lookupSeries rest k = some ms := by
        simpa [lookupSeries, hp] using h
      show lookupSeries ((if p.1 = k then (k, v) else p) :: updateSeries rest k v) k
        = some v
      rw [if_neg hp]
      show (if p.1 = k then some p.2 else lookupSeries (updateSeries rest k v) k)
        = some v
      rw [if_neg hp]
      exact ih hrest

/-! ### The claims about the daily aggregation and the threshold evaluator -/

/-- C1: every daily aggregation function (`daily_total`, `daily_mean`,
`daily_max`, `daily_min`, `daily_count`) partitions the rows of a wide
table by the calendar-date component of the timestamp and reduces each
column independently within each partition with its reducer (sum,
arithmetic mean, maximum, minimum, count of present cells); the output has
exactly one row per distinct calendar date present in the input, in
ascending date order, with the same columns as the input in the same
order. -/
theorem C1_daily_aggregation (t : WideTable) :
    ((daily_total t).columns = t.columns ∧ (daily_mean t).columns = t.columns ∧
      (daily_max t).columns = t.columns ∧ (daily_min t).columns = t.columns ∧
      (daily_count t).columns = t.columns) ∧
    ((daily_total t).rows.map Prod.fst = groupDates t ∧
      (daily_mean t).rows.map Prod.fst = groupDates t ∧
      (daily_max t).rows.map Prod.fst = groupDates t ∧
      (daily_min t).rows.map Prod.fst = groupDates t ∧
      (daily_count t).rows.map Prod.fst = groupDates t) ∧
    (groupDates t).Pairwise (fun a b : Int => a < b) ∧
    (∀ d : Int, d ∈ groupDates t ↔ ∃ r ∈ t.rows, r.1.date = d) ∧
    (∀ d : Int, ∀ j : Nat, d ∈ groupDates t → j < t.columns.length →
      cellAtDate (daily_total t) d j = some (pdSum (colVals (rowsOn t d) j)) ∧
      cellAtDate (daily_mean t) d j = some (pdMean (colVals (rowsOn t d) j)) ∧
      cellAtDate (daily_max t) d j = some (pdMax (colVals (rowsOn t d) j)) ∧
      cellAtDate (daily_min t) d j = some (pdMin (colVals (rowsOn t d) j)) ∧
      cellAtDate (daily_count t) d j = some (pdCount (colVals (rowsOn t d) j))) := by
  refine ⟨⟨rfl, rfl, rfl, rfl, rfl⟩, ⟨?_, ?_, ?_, ?_, ?_⟩,
    groupDates_sorted t, ?_, ?_⟩
  · simp only [daily_total, aggregateBy, List.map_map]
    exact List.map_id _
  · simp only [daily_mean, aggregateBy, List.map_map]
    exact List.map_id _
  · simp only [daily_max, aggregateBy, List.map_map]
    exact List.map_id _
  · simp only [daily_min, aggregateBy, List.map_map]
    exact List.map_id _
  · simp only [daily_count, aggregateBy, List.map_map]
    exact List.map_id _
  · intro d
    rw [mem_groupDates]
    simp [datesOf]
  · intro d j hd hj
    exact ⟨cellAtDate_aggregateBy pdSum t d j hd hj,
      cellAtDate_aggregateBy pdMean t d j hd hj,
      cellAtDate_aggregateBy pdMax t d j hd hj,
      cellAtDate_aggregateBy pdMin t d j hd hj,
      cellAtDate_aggregateBy pdCount t d j hd hj⟩

/-- Witness for C1 at the spec's end-to-end example table. -/
theorem C1_daily_aggregation_witness :
    cellAtDate (daily_mean exampleTable) 0 0
      = some (pdMean (colVals (rowsOn exampleTable 0) 0)) ∧
    ((0 : Int) ∈ groupDates exampleTable ↔
      ∃ r ∈ exampleTable.rows, r.1.date = 0) :=
  ⟨(((C1_daily_aggregation exampleTable).2.2.2.2) 0 0 (by decide) (by decide)).2.1,
    ((C1_daily_aggregation exampleTable).2.2.2.1) 0⟩

/-- C2 (counterexample): on the one-row table whose only cell is absent,
the (date, column) partition has zero present values, yet `daily_total`
emits the present value `0` (pandas `GroupBy.sum` with its default
`min_count = 0`), not an absent cell as the claim states. -/
theorem C2_total_counterexample :
    colVals (rowsOn absentCellTable 0) 0 = [] ∧
    cellAtDate (daily_total absentCellTable) 0 0 = some (some 0) ∧
    cellAtDate (daily_total absentCellTable) 0 0 ≠ some none := by
  refine ⟨rfl, ?_, ?_⟩ <;> decide

/-- C2 (amended): a (calendar-date, column) partition with zero present
values yields an absent output cell for `daily_mean`, `daily_max` and
`daily_min`, the present value `0` for `daily_total`, and `0` for
`daily_count`. -/
theorem C2_empty_partition (t : WideTable) (d : Int) (j : Nat)
    (hd : d ∈ groupDates t) (hj : j < t.columns.length)
    (hempty : colVals (rowsOn t d) j = []) :
    cellAtDate (daily_mean t) d j = some none ∧
    cellAtDate (daily_max t) d j = some none ∧
    cellAtDate (daily_min t) d j = some none ∧
    cellAtDate (daily_total t) d j = some (some 0) ∧
    cellAtDate (daily_count t) d j = some (some 0) := by
  refine ⟨?_, ?_, ?_, ?_, ?_⟩
  · show cellAtDate (aggregateBy pdMean t) d j = some none
    rw [cellAtDate_aggregateBy pdMean t d j hd hj, hempty]
    rfl
  · show cellAtDate (aggregateBy pdMax t) d j = some none
    rw [cellAtDate_aggregateBy pdMax t d j hd hj, hempty]
    rfl
  · show cellAtDate (aggregateBy pdMin t) d j = some none
    rw [cellAtDate_aggregateBy pdMin t d j hd hj, hempty]
    rfl
  · show cellAtDate (aggregateBy pdSum t) d j = some (some 0)
    rw [cellAtDate_aggregateBy pdSum t d j hd hj, hempty]
    rfl
  · show cellAtDate (aggregateBy pdCount t) d j = some (some 0)
    rw [cellAtDate_aggregateBy pdCount t d j hd hj, hempty]
    simp [pdCount]

/-- Witness for the amended C2 at the one-row absent-cell table. -/
theorem C2_empty_partition_witness :
    cellAtDate (daily_mean absentCellTable) 0 0 = some none ∧
    cellAtDate (daily_max absentCellTable) 0 0 = some none ∧
    cellAtDate (daily_min absentCellTable) 0 0 = some none ∧
    cellAtDate (daily_total absentCellTable) 0 0 = some (some 0) ∧
    cellAtDate (daily_count absentCellTable) 0 0 = some (some 0) :=
  C2_empty_partition absentCellTable 0 0 (by decide) (by decide) rfl

/-- C3: `data_above_threshold(site_id, table, threshold)` with a `site_id`
that is not a column of the table fails: the `data[site_id]` lookup raises
(the spec's `UnknownSiteError`), modelled as `Except.error`, so the call is
fatal and produces no boolean list. -/
theorem C3_unknown_site (site_id : String) (data : WideTable)
    (threshold : ℚ) (h : site_id ∉ data.columns) :
    data_above_threshold site_id data threshold
      = Except.error (PyError.keyError site_id) := by
  unfold data_above_threshold
  rw [colIndex_eq_none data.columns site_id h]

/-- Witness for C3: site `C` is not a column of the example table. -/
theorem C3_unknown_site_witness :
    data_above_threshold "C" exampleTable 2
      = Except.error (PyError.keyError "C") :=
  C3_unknown_site "C" exampleTable 2 (by decide)

/-- C4: for a site that is a column of the table (at position `j`; the
data model keeps column identifiers duplicate-free), `data_above_threshold`
returns one boolean per row in row order, `true` exactly when the row's
cell for that site is present and strictly greater than the threshold; an
absent cell yields `false`. -/
theorem C4_above_threshold (data : WideTable) (site_id : String)
    (threshold : ℚ) (j : Nat) (hnd : data.columns.Nodup)
    (hj : data.columns[j]? = some site_id) :
    data_above_threshold site_id data threshold
      = Except.ok (data.rows.map fun r => thresholdFlag threshold (cellOf r j)) ∧
    ∀ l : List Bool,
      data_above_threshold site_id data threshold = Except.ok l →
        l.length = data.rows.length ∧
        ∀ i : Nat, ∀ r : Row, data.rows[i]? = some r →
          (l[i]? = some true ↔ ∃ v : ℚ, cellOf r j = some v ∧ threshold < v) ∧
          (cellOf r j = none → l[i]? = some false) := by
  have hci : colIndex data.columns site_id = some j :=
    colIndex_eq_some data.columns site_id j hnd hj
  have hok : data_above_threshold site_id data threshold
      = Except.ok (data.rows.map fun r => thresholdFlag threshold (cellOf r j)) := by
    unfold data_above_threshold
    rw [hci]
  refine ⟨hok, ?_⟩
  intro l hl
  rw [hok] at hl
  injection hl with hl'
  subst hl'
  refine ⟨by simp, ?_⟩
  intro i r hi
  have hli : (data.rows.map fun r => thresholdFlag threshold (cellOf r j))[i]?
      = some (thresholdFlag threshold (cellOf r j)) := by
    rw [List.getElem?_map, hi]
    rfl
  constructor
  · rw [hli]
    cases hc : cellOf r j with
    | none => simp [thresholdFlag, hc]
    | some v => simp [thresholdFlag, hc]
  · intro hc
    rw [hli, hc]
    rfl

/-- Witness for C4: site `A` is the first column of the example table. -/
theorem C4_above_threshold_witness :
    data_above_threshold "A" exampleTable 2
      = Except.ok (exampleTable.rows.map fun r => thresholdFlag 2 (cellOf r 0)) :=
  (C4_above_threshold exampleTable "A" 2 0 (by decide) rfl).1

/-! ### The claims about the object model -/

/-- C7: when every timestamp of the table falls on a pairwise-distinct
calendar date (and each row carries one cell per column, as the data model
requires), each daily aggregation returns one output row per input row;
whenever an input cell holds a value `v`, the output cell at that row's
date and column is `v` for `daily_total`, `daily_mean`, `daily_max` and
`daily_min`, and `1` for `daily_count`. -/
theorem C7_distinct_dates (t : WideTable) (hnd : (datesOf t).Nodup)
    (hshape : ∀ r ∈ t.rows, r.2.length = t.columns.length) :
    ((daily_total t).rows.length = t.rows.length ∧
      (daily_mean t).rows.length = t.rows.length ∧
      (daily_max t).rows.length = t.rows.length ∧
      (daily_min t).rows.length = t.rows.length ∧
      (daily_count t).rows.length = t.rows.length) ∧
    ∀ r ∈ t.rows, ∀ j : Nat, ∀ v : ℚ, cellOf r j = some v →
      cellAtDate (daily_total t) r.1.date j = some (some v) ∧
      cellAtDate (daily_mean t) r.1.date j = some (some v) ∧
      cellAtDate (daily_max t) r.1.date j = some (some v) ∧
      cellAtDate (daily_min t) r.1.date j = some (some v) ∧
      cellAtDate (daily_count t) r.1.date j = some (some 1) := by
  have hlen : ∀ agg : List ℚ → Option ℚ,
      (aggregateBy agg t).rows.length = t.rows.length := by
    intro agg
    simp only [aggregateBy, List.length_map]
    exact groupDates_length t hnd
  refine ⟨⟨hlen pdSum, hlen pdMean, hlen pdMax, hlen pdMin, hlen pdCount⟩, ?_⟩
  intro r hr j v hv
  have hj : j < t.columns.length := by
    rw [← hshape r hr]
    have h2 : r.2[j]? = some (some v) := Option.join_eq_some.mp hv
    exact (List.getElem?_eq_some_iff.mp h2).1
  have hd : r.1.date ∈ groupDates t :=
    (mem_groupDates t _).mpr (List.mem_map_of_mem _ hr)
  have hsingle : rowsOn t r.1.date = [r] := rowsOn_eq_single t hnd r hr
  have hcv : colVals (rowsOn t r.1.date) j = [v] := by
    rw [hsingle, colVals_single, hv]
    rfl
  refine ⟨?_, ?_, ?_, ?_, ?_⟩
  · show cellAtDate (aggregateBy pdSum t) r.1.date j = some (some v)
    rw [cellAtDate_aggregateBy pdSum t _ j hd hj, hcv, pdSum_single]
  · show cellAtDate (aggregateBy pdMean t) r.1.date j = some (some v)
    rw [cellAtDate_aggregateBy pdMean t _ j hd hj, hcv, pdMean_single]
  · show cellAtDate (aggregateBy pdMax t) r.1.date j = some (some v)
    rw [cellAtDate_aggregateBy pdMax t _ j hd hj, hcv, pdMax_single]
  · show cellAtDate (aggregateBy pdMin t) r.1.date j = some (some v)
    rw [cellAtDate_aggregateBy pdMin t _ j hd hj, hcv, pdMin_single]
  · show cellAtDate (aggregateBy pdCount t) r.1.date j = some (some 1)
    rw [cellAtDate_aggregateBy pdCount t _ j hd hj, hcv, pdCount_single]

/-- Witness for C7 at a two-row table on two distinct dates. -/
theorem C7_distinct_dates_witness :
    cellAtDate (daily_mean twoDayTable) 0 0 = some (some 2) ∧
    cellAtDate (daily_count twoDayTable) 0 0 = some (some 1) ∧
    (daily_total twoDayTable).rows.length = twoDayTable.rows.length := by
  have h := C7_distinct_dates twoDayTable (by decide) (by decide)
  have h2 := h.2 (⟨0, 0⟩, [some 2]) (by decide) 0 2 rfl
  exact ⟨h2.2.1, h2.2.2.2.2, h.1.1⟩

/-- C8: `MeasurementSeries.add_measurement` appends the given readings to
the end of the stored series in the order given, with no sorting and no
duplicate-timestamp resolution (per-timestamp multiplicities add up), and
after construction as well as after every `add_measurement` call the
stored series carries the display name (`series.name == name`). -/
theorem C8_measurement_series (ms : MeasurementSeries) (d : PdSeries)
    (s : PdSeries) (n : String) (u : Option String) (τ : Timestamp) :
    (ms.add_measurement d).series.entries = ms.series.entries ++ d.entries ∧
    ((ms.add_measurement d).series.entries.map Prod.fst).count τ
      = (ms.series.entries.map Prod.fst).count τ
        + (d.entries.map Prod.fst).count τ ∧
    (ms.add_measurement d).name = ms.name ∧
    (ms.add_measurement d).series.sname = some (ms.add_measurement d).name ∧
    (MeasurementSeries.create s n u).series.sname
      = some (MeasurementSeries.create s n u).name ∧
    (MeasurementSeries.create s n u).name = n := by
  refine ⟨rfl, ?_, rfl, rfl, rfl, rfl⟩
  show ((ms.series.entries ++ d.entries).map Prod.fst).count τ = _
  rw [List.map_append, List.count_append]

/-- C9: `Site.add_measurement(measurement_id, data, units)` delegates to
the already-registered series when one exists under that id — the result
does not depend on the `units` argument, so the units of the first call
are kept — and otherwise registers a fresh `MeasurementSeries` built from
`data` with those units under `measurement_id`. -/
theorem C9_site_add_measurement (site : Site) (mid : String) (d : PdSeries)
    (u uNew : Option String) :
    (∀ ms : MeasurementSeries, lookupSeries site.measurements mid = some ms →
      site.add_measurement mid d u = site.add_measurement mid d uNew ∧
      (site.add_measurement mid d u).measurements
        = updateSeries site.measurements mid (ms.add_measurement d) ∧
      lookupSeries (site.add_measurement mid d u).measurements mid
        = some (ms.add_measurement d) ∧
      (ms.add_measurement d).units = ms.units) ∧
    (lookupSeries site.measurements mid = none →
      (site.add_measurement mid d u).measurements
        = site.measurements ++ [(mid, MeasurementSeries.create d mid u)] ∧
      (MeasurementSeries.create d mid u).units = u ∧
      (MeasurementSeries.create d mid u).series.entries = d.entries ∧
      (MeasurementSeries.create d mid u).name = mid) := by
  constructor
  · intro ms hms
    have hu : site.add_measurement mid d u
        = { site with measurements :=
            updateSeries site.measurements mid (ms.add_measurement d) } := by
      unfold Site.add_measurement
      rw [hms]
    have hu2 : site.add_measurement mid d uNew
        = { site with measurements :=
            updateSeries site.measurements mid (ms.add_measurement d) } := by
      unfold Site.add_measurement
      rw [hms]
    refine ⟨hu.trans hu2.symm, ?_, ?_, rfl⟩
    · rw [hu]
    · rw [hu]
      exact lookupSeries_updateSeries site.measurements mid _ ms hms
  · intro hnone
    have hu : site.add_measurement mid d u
        = { site with measurements := site.measurements
            ++ [(mid, MeasurementSeries.create d mid u)] } := by
      unfold Site.add_measurement
      rw [hnone]
    exact ⟨by rw [hu], rfl, rfl, rfl⟩

/-- Witness for C9: delegation ignores the new units on an existing id,
and a fresh id registers a new series at the end of the mapping. -/
theorem C9_site_add_measurement_witness :
    siteWithRain.add_measurement "rain" rainData (some "cm")
      = siteWithRain.add_measurement "rain" rainData none ∧
    (bareSite.add_measurement "rain" rainData (some "mm")).measurements
      = bareSite.measurements
        ++ [("rain", MeasurementSeries.create rainData "rain" (some "mm"))] :=
  ⟨((C9_site_add_measurement siteWithRain "rain" rainData (some "cm") none).1
      (MeasurementSeries.create rainData "rain" (some "mm")) rfl).1,
    ((C9_site_add_measurement bareSite "rain" rainData (some "mm") (some "mm")).2
      rfl).1⟩

/-- C5 (code bug): whenever both the catchment area and the candidate
location are defined, `Catchment.add_site` evaluates the unbound global
`sjoin` and raises `NameError`; no "not within catchment" report can ever
be produced, contradicting the claimed refusal behaviour. -/
theorem C5_spatial_check_nameError (c : Catchment) (s : Site)
    (ha : c.area.isSome = true) (hl : s.location.isSome = true) :
    c.add_site s = Except.error (PyError.nameError "sjoin") := by
  obtain ⟨area, harea⟩ := Option.isSome_iff_exists.mp ha
  obtain ⟨loc, hloc⟩ := Option.isSome_iff_exists.mp hl
  unfold Catchment.add_site
  rw [harea, hloc]
  show (if "sjoin" ∈ moduleGlobals then
      if area loc then c.dupCheckAndAdd s
      else Except.ok (c, AddSiteOutcome.notInCatchment)
    else Except.error (PyError.nameError "sjoin"))
    = Except.error (PyError.nameError "sjoin")
  rw [if_neg (by decide : ¬ ("sjoin" ∈ moduleGlobals))]

/-- Witness for C5 at a concrete catchment with a defined area and a
candidate site with a defined location. -/
theorem C5_spatial_check_nameError_witness :
    withAreaCatchment.add_site locatedSite
      = Except.error (PyError.nameError "sjoin") :=
  C5_spatial_check_nameError withAreaCatchment locatedSite rfl rfl

/-- C6 (code bug): a duplicate-named candidate is refused with the
catchment state unchanged only when the spatial check is skipped (either
geometry undefined); when both geometries are defined — the claim's
"passes the spatial check" case — the unbound global `sjoin` raises
`NameError` before the duplicate-name check can run. -/
theorem C6_duplicate_name_eval :
    noAreaDupCatchment.add_site locatedSite
      = Except.ok (noAreaDupCatchment, AddSiteOutcome.alreadyAdded) ∧
    dupAreaCatchment.add_site locatedSite
      = Except.error (PyError.nameError "sjoin") :=
  ⟨rfl, rfl⟩

/-- C10: `Site` and `Catchment` construction always raises `NameError`
because the module never binds `gpd` (its only import is
`import pandas as pd`), and `sjoin` is unbound as well; hence no `Site` or
`Catchment` object can come into existence through the module's
constructors and none of their operations is reachable. -/
theorem C10_constructors_nameError :
    (∀ (name : String) (longitude latitude : Option ℚ),
      Site.create name longitude latitude
        = Except.error (PyError.nameError "gpd")) ∧
    (∀ (name : String) (shapefile : Option Area),
      Catchment.create name shapefile
        = Except.error (PyError.nameError "gpd")) ∧
    "gpd" ∉ moduleGlobals ∧ "sjoin" ∉ moduleGlobals := by
  refine ⟨?_, ?_, by decide, by decide⟩
  · intro name longitude latitude
    unfold Site.create
    split <;> rw [if_neg (by decide : ¬ ("gpd" ∈ moduleGlobals))]
  · intro name shapefile
    unfold Catchment.create
    split <;> rw [if_neg (by decide : ¬ ("gpd" ∈ moduleGlobals))]
